import Mathlib

/-!
Verification of `error_catcher` (src/error_catcher/error_catcher.py).

The module defines a decorator `silent(key_vars, log_file, ascending)` whose
inner wrapper `decorated` runs the wrapped zero-argument callable, absorbs any
exception into a textual report (timestamp, original traceback, and a
per-frame variables section produced by `variable_catching`), and either
prints the report or prepends/appends it to a log file.

The embedding below is a shallow model of that code:
 - Python runtime values are modelled only as far as the report generator
   observes them: a value is its `str()` rendering, which may itself raise
   (`Value.unprintable`), plus the `__UNDEF__` sentinel used by `cgitb`.
 - The result of `cgitb.scanvars` (stdlib code, external to this repository:
   a tokenizer over the source lines near the failure) is treated as an
   oracle input carried by each `FrameRecord`; `cgitb.lookup` is modelled by
   its local-then-global resolution, which is how the code and its spec use it.
 - The file system is a map from path to content; the timestamp and the text
   of `traceback.format_exc()` are inputs.
-/

set_option maxRecDepth 8000

namespace ErrorCatcher

/-- A Python value as observed by the report generator.  `undef` is the
`__UNDEF__` sentinel of `cgitb` (compared by identity in `parse_vars`);
`str s` is a value whose `str()` conversion yields `s`; `unprintable` is a
value whose `str()` conversion raises; `pyNone` is Python's `None` (what a
function without a `return` statement returns). -/
inductive Value where
  | undef : Value
  | pyNone : Value
  | str (s : String) : Value
  | unprintable : Value
deriving DecidableEq, Repr

/-- Python `str()` applied to a value: total on ordinary values, raising
(`Except.error`) on a value whose conversion raises.  `str(__UNDEF__)` is
the rendering of the empty list sentinel. -/
def Value.render : Value → Except Unit String
  | .undef => .ok "[]"
  | .pyNone => .ok "None"
  | .str s => .ok s
  | .unprintable => .error ()

/-- One `(name, where, value)` triple as produced by `cgitb.scanvars` and
consumed by `parse_vars` (error_catcher.py line 46). -/
abbrev Entry := String × String × Value

/-- The dump line `parse_vars` builds for one triple (error_catcher.py
lines 49-53): `f'{where}: {name} = {value}'` when the value is not the
`__UNDEF__` sentinel, `f'{name} undefined'` otherwise.  Rendering the value
inside the f-string may raise. -/
def render_entry (e : Entry) : Except Unit String :=
  if e.2.2 = Value.undef then .ok (e.1 ++ " undefined")
  else
    match e.2.2.render with
    | .error u => .error u
    | .ok s => .ok (e.2.1 ++ ": " ++ e.1 ++ " = " ++ s)

/-- The loop of `parse_vars` (error_catcher.py lines 43-55): walk the
triples, skip a name already in `done`, record the name and emit its dump
line.  An f-string whose value rendering raises aborts the whole call. -/
def parse_vars_aux : List Entry → List String → Except Unit (List String)
  | [], _ => .ok []
  | e :: rest, done =>
    if e.1 ∈ done then parse_vars_aux rest done
    else
      match render_entry e with
      | .error u => .error u
      | .ok line =>
        match parse_vars_aux rest (e.1 :: done) with
        | .error u => .error u
        | .ok tl => .ok (line :: tl)

/-- `parse_vars` (error_catcher.py lines 43-55). -/
def parse_vars (vars : List Entry) : Except Unit (List String) :=
  parse_vars_aux vars []

/-- The entry list `parse_vars` keeps after de-duplication by name (first
occurrence wins), before formatting.  Used to state uniqueness claims. -/
def dedup_entries : List Entry → List String → List Entry
  | [], _ => []
  | e :: rest, done =>
    if e.1 ∈ done then dedup_entries rest done
    else e :: dedup_entries rest (e.1 :: done)

/-- One traceback frame as `variable_catching` observes it
(error_catcher.py lines 65-67): source file, line number, the triples
returned by `cgitb.scanvars` for this frame (an oracle input, see the file
header), and the frame's local and global namespaces. -/
structure FrameRecord where
  file : String
  lnum : Nat
  autoVars : List Entry
  locals : List (String × Value)
  globals : List (String × Value)

/-- `cgitb.lookup(name, frame, locals)` as the code and spec use it
(stdlib, external to this repository): resolve in the local namespace
first, then the global one; `(none, __UNDEF__)` when the name resolves in
neither (the spec's contract in section 4.2 step 2; the stdlib's extra
builtins fallback is outside the spec and not modelled). -/
def lookup (name : String) (locs globs : List (String × Value)) :
    Option String × Value :=
  match List.lookup name locs with
  | some v => (some "local", v)
  | none =>
    match List.lookup name globs with
    | some v => (some "global", v)
    | none => (none, Value.undef)

/-- The manual-tracing loop of `variable_catching` (error_catcher.py
lines 81-88): for each requested name not already caught automatically
(`done` holds the names from the raw `scanvars` result), look it up and
record `(key_var, where, value)` only when `where` is truthy. -/
def manual_caught_vars (key_vars : List String) (done : List String)
    (r : FrameRecord) : List Entry :=
  key_vars.filterMap fun kv =>
    if kv ∈ done then none
    else
      match lookup kv r.locals r.globals with
      | (some whr, v) => some (kv, whr, v)
      | (none, _) => none

/-- The inner loop `for var in ...: error_message += f'  |-- {var[:200]}\n'`
of `variable_catching` (error_catcher.py lines 98-99 and 104-105): each dump
line is truncated to its first 200 characters. -/
def sec_lines : List String → String
  | [] => ""
  | v :: rest => "  |-- " ++ v.take 200 ++ "\n" ++ sec_lines rest

/-- The text `variable_catching` assembles for one frame, without the
one-time `/*Variables*/` header: the `file, line n` header when any
variable was caught, then the two sections.  This is a characterization
helper; `variable_catching_aux` below is the source-faithful loop, and
`variable_catching_aux_eq_sections` relates the two. -/
def frame_section (key_vars : List String) (r : FrameRecord) :
    Except Unit String :=
  match parse_vars r.autoVars with
  | .error u => .error u
  | .ok auto =>
    let done := r.autoVars.map fun e => e.1
    match parse_vars (manual_caught_vars key_vars done r) with
    | .error u => .error u
    | .ok manual =>
      let hasF : Bool := auto.length + manual.length != 0
      let lineHdr :=
        if hasF then r.file ++ ", line " ++ toString r.lnum ++ "\n" else ""
      let aSec :=
        if !auto.isEmpty then "|-- Detected relevant vars:\n" ++ sec_lines auto
        else ""
      let mSec :=
        if !manual.isEmpty then "|-- Other traced vars:\n" ++ sec_lines manual
        else ""
      .ok (lineHdr ++ aSec ++ mSec)

/-- The frame loop of `variable_catching` (error_catcher.py lines 62-105).
Per frame: parse the `scanvars` triples (lines 76-77), record the caught
names (line 78), run the manual-tracing loop (lines 81-88), then assemble
the text (lines 91-105).  `flag` mirrors the Python `flag` variable: it is
still set while the `/*Variables*/` header has not been emitted, and the
header is emitted (and the flag cleared) at the first frame with at least
one caught variable. -/
def variable_catching_aux (key_vars : List String) :
    List FrameRecord → Bool → Except Unit String
  | [], _ => .ok ""
  | r :: rest, flag =>
    match parse_vars r.autoVars with
    | .error u => .error u
    | .ok auto =>
      let done := r.autoVars.map fun e => e.1
      match parse_vars (manual_caught_vars key_vars done r) with
      | .error u => .error u
      | .ok manual =>
        let hasF : Bool := auto.length + manual.length != 0
        let varHdr := if hasF && flag then "/*Variables*/\n" else ""
        let lineHdr :=
          if hasF then r.file ++ ", line " ++ toString r.lnum ++ "\n" else ""
        let aSec :=
          if !auto.isEmpty then
            "|-- Detected relevant vars:\n" ++ sec_lines auto
          else ""
        let mSec :=
          if !manual.isEmpty then
            "|-- Other traced vars:\n" ++ sec_lines manual
          else ""
        match variable_catching_aux key_vars rest (flag && !hasF) with
        | .error u => .error u
        | .ok tl => .ok (varHdr ++ lineHdr ++ aSec ++ mSec ++ tl)

/-- `variable_catching` (error_catcher.py lines 58-106): the report block
listing auto-detected and manually traced variables per frame. -/
def variable_catching (key_vars : List String) (records : List FrameRecord) :
    Except Unit String :=
  variable_catching_aux key_vars records true

/-- The `"-" * 32` separator opening every report (error_catcher.py
line 147). -/
def dashSep : String := String.mk (List.replicate 32 '-')

/-- The full `error_message` the wrapper builds inside its `except` block
(error_catcher.py lines 146-152): separator, timestamp, the
`/*Original Traceback*/` section holding `traceback.format_exc()`, the
variables block, and (the message being never empty) a final blank-line
trailer.  Raises exactly when `variable_catching` raises. -/
def report_text (key_vars : List String) (timestamp tb : String)
    (frames : List FrameRecord) : Except Unit String :=
  match variable_catching key_vars frames with
  | .error u => .error u
  | .ok vm =>
    let em := dashSep ++ "\n" ++ timestamp ++ "\n\n/*Original Traceback*/\n"
                ++ tb ++ "\n" ++ vm
    .ok (if em != "" then em ++ "\n\n" else em)

/-- The configuration captured at decoration time by
`silent(key_vars, log_file, ascending)` (error_catcher.py line 108). -/
structure Config where
  key_vars : List String
  log_file : String
  ascending : Bool

/-- The behaviour of one call of the wrapped callable: either it returns a
value, or it raises — in which case the report inputs are the text of
`traceback.format_exc()` and the frame records of
`inspect.getinnerframes` on the exception's traceback. -/
inductive FuncResult where
  | ret (v : Value) : FuncResult
  | exc (tb : String) (frames : List FrameRecord) : FuncResult

/-- An exception escaping the decorated callable itself: `typeError` for a
call that passes arguments to the zero-parameter wrapper, and
`strConversionError` for a value rendering that raises inside report
assembly (which the `except` block does not guard against). -/
inductive PyExc where
  | typeError : PyExc
  | strConversionError : PyExc
deriving DecidableEq, Repr

/-- The observable outcome of one invocation of `decorated`: what it
returns (or raises), what it printed to standard output, and the file
system afterwards (a map from path to content). -/
structure DecoratedResult where
  ret : Except PyExc Value
  out : String
  fs : String → Option String

/-- The body of `decorated` (error_catcher.py lines 141-166).  On normal
return of the wrapped callable the `try` block falls through: the return
value is discarded and `decorated`, having no `return` statement, returns
`None`.  On an exception: build the report; if report assembly itself
raises, that exception escapes `decorated` untouched.  Otherwise, with a
non-empty `log_file`, print the one-line notice and write the report to the
file — `open(log_file, 'a+')` creates the file when absent, so prepending
treats a missing file as empty content; with an empty `log_file`, print
the report (Python `print` appends a newline). -/
def decorated_body (cfg : Config) (timestamp : String) (f : FuncResult)
    (fs : String → Option String) : DecoratedResult :=
  match f with
  | .ret _v => ⟨.ok Value.pyNone, "", fs⟩
  | .exc tb frames =>
    match report_text cfg.key_vars timestamp tb frames with
    | .error _ => ⟨.error .strConversionError, "", fs⟩
    | .ok em =>
      if cfg.log_file != "" then
        let notice := "Exception caught. See " ++ cfg.log_file ++ ".\n"
        let old := (fs cfg.log_file).getD ""
        let newContent := if cfg.ascending then old ++ em else em ++ old
        ⟨.ok Value.pyNone, notice,
          fun q => if q = cfg.log_file then some newContent else fs q⟩
      else
        ⟨.ok Value.pyNone, em ++ "\n", fs⟩

/-- Invoking `decorated` with `nargs` arguments (positional and keyword
together).  `decorated` is defined as `def decorated():`
(error_catcher.py line 140), so CPython's argument binding raises a
`TypeError` before the body — and so before its `try` block — runs
whenever any argument is supplied. -/
def decorated_invoke (cfg : Config) (timestamp : String) (f : FuncResult)
    (fs : String → Option String) (nargs : Nat) : DecoratedResult :=
  if nargs != 0 then ⟨.error .typeError, "", fs⟩
  else decorated_body cfg timestamp f fs

/-! ## Helper notions and concrete fixtures -/

/-- Concatenation of a list of strings, in order. -/
def sjoin : List String → String
  | [] => ""
  | s :: rest => s ++ sjoin rest

/-- The per-frame section texts of `variable_catching`, in frame order and
with the same error behaviour, but without the one-time `/*Variables*/`
header. -/
def frame_sections (key_vars : List String) :
    List FrameRecord → Except Unit (List String)
  | [] => .ok []
  | r :: rest =>
    match frame_section key_vars r with
    | .error u => .error u
    | .ok s =>
      match frame_sections key_vars rest with
      | .error u => .error u
      | .ok l => .ok (s :: l)

/-- Formatting of an entry list without de-duplication. -/
def render_lines : List Entry → Except Unit (List String)
  | [] => .ok []
  | e :: rest =>
    match render_entry e with
    | .error u => .error u
    | .ok line =>
      match render_lines rest with
      | .error u => .error u
      | .ok tl => .ok (line :: tl)

/-- The empty file system: no file exists at any path. -/
def fs0 : String → Option String := fun _ => none

/-- A frame whose only detected variable has a value whose `str()` raises:
the `x` referenced on the failing line is bound to such an object. -/
def fr_bad1 : FrameRecord :=
  ⟨"a.py", 7, [("x", "local", Value.unprintable)],
   [("x", Value.unprintable)], []⟩

/-- A second frame of the same kind, with a global `y` whose `str()`
raises. -/
def fr_bad6 : FrameRecord :=
  ⟨"b.py", 12, [("y", "global", Value.unprintable)], [],
   [("y", Value.unprintable)]⟩

/-- A frame where the failing line `k / i` references `i` and `k`
(auto-detected), with locals `i = 0`, `k = 2`. -/
def frW4 : FrameRecord :=
  ⟨"t.py", 9, [("k", "local", Value.str "2"), ("i", "local", Value.str "0")],
   [("i", Value.str "0"), ("k", Value.str "2")], []⟩

/-- A frame with no detected variables at all. -/
def frW8 : FrameRecord := ⟨"w.py", 2, [], [], []⟩

/-- A 210-character value rendering (longer than the 200-character cap). -/
def aVal : String := String.mk (List.replicate 210 'a')

/-- What the code actually reports for a single auto finding
`local: x = <210 a's>`: the whole dump line is cut at 200 characters, so
only 189 of the value's characters survive. -/
def repC3 : String :=
  "/*Variables*/\nc.py, line 5\n|-- Detected relevant vars:\n  |-- local: x = "
    ++ String.mk (List.replicate 189 'a') ++ "\n"

/-- Report text of a run with timestamp `t`, traceback text `TB` and no
frames. -/
def emW1 : String :=
  "--------------------------------\nt\n\n/*Original Traceback*/\nTB\n\n\n"

/-- Report text of a run with timestamp `t1`, traceback text `TB1` and no
frames. -/
def m1W : String :=
  "--------------------------------\nt1\n\n/*Original Traceback*/\nTB1\n\n\n"

/-- Report text of a run with timestamp `t2`, traceback text `TB2` and no
frames. -/
def m2W : String :=
  "--------------------------------\nt2\n\n/*Original Traceback*/\nTB2\n\n\n"

/-- Report text of a run with timestamp `t9`, traceback text `TB9` and no
frames. -/
def emW9 : String :=
  "--------------------------------\nt9\n\n/*Original Traceback*/\nTB9\n\n\n"

/-! ## Helper lemmas -/

theorem ne_empty_of_length_pos {s : String} (h : 0 < s.length) : s ≠ "" := by
  intro he
  rw [he] at h
  simp at h

theorem report_line_ne_empty (file nstr rest : String) :
    file ++ (", line " ++ (nstr ++ ("\n" ++ rest))) ≠ "" := by
  apply ne_empty_of_length_pos
  have h7 : (", line " : String).length = 7 := rfl
  have h1 : ("\n" : String).length = 1 := rfl
  simp [String.length_append, h7, h1]

/-- The loop of `variable_catching` equals the per-frame sections joined in
order, with the `/*Variables*/` header inserted exactly once, in front of
the first non-empty section (no header at all when every section is
empty, and none when the flag is already cleared). -/
theorem variable_catching_aux_eq_sections (key_vars : List String) :
    ∀ (frames : List FrameRecord) (flag : Bool),
    variable_catching_aux key_vars frames flag =
      (frame_sections key_vars frames).map fun l =>
        (if flag = true ∧ sjoin l ≠ "" then "/*Variables*/\n" else "") ++ sjoin l
  | [], flag => by
    simp [variable_catching_aux, frame_sections, sjoin, Except.map]
  | r :: rest, flag => by
    rw [variable_catching_aux]
    unfold frame_sections frame_section
    cases h1 : parse_vars r.autoVars with
    | error u => rfl
    | ok auto =>
      dsimp only
      cases h2 : parse_vars
          (manual_caught_vars key_vars (List.map (fun e => e.1) r.autoVars) r) with
      | error u => rfl
      | ok manual =>
        dsimp only
        rw [variable_catching_aux_eq_sections key_vars rest
          (flag && !(auto.length + manual.length != 0))]
        cases h3 : frame_sections key_vars rest with
        | error u => rfl
        | ok l =>
          dsimp only [Except.map]
          cases hFb : (auto.length + manual.length != 0) with
          | false =>
            have hF : auto.length + manual.length = 0 := by simpa using hFb
            have ha : auto = [] := List.length_eq_zero.mp (by omega)
            have hm : manual = [] := List.length_eq_zero.mp (by omega)
            subst ha; subst hm
            simp [sjoin]
          | true =>
            cases flag with
            | false => simp [sjoin, String.append_assoc]
            | true => simp [sjoin, String.append_assoc, report_line_ne_empty]

/-- `parse_vars` is exactly: de-duplicate by name (first occurrence wins),
then format each kept entry. -/
theorem parse_vars_aux_eq_render_dedup :
    ∀ (l : List Entry) (done : List String),
    parse_vars_aux l done = render_lines (dedup_entries l done)
  | [], _ => rfl
  | e :: rest, done => by
    rw [parse_vars_aux, dedup_entries]
    by_cases h : e.1 ∈ done
    · rw [if_pos h, if_pos h]
      exact parse_vars_aux_eq_render_dedup rest done
    · rw [if_neg h, if_neg h, render_lines]
      rw [parse_vars_aux_eq_render_dedup rest (e.1 :: done)]

/-- After de-duplication a name occurs once when it occurs in the input
(and is not blocked by `done`), never more. -/
theorem dedup_entries_countP (name : String) :
    ∀ (l : List Entry) (done : List String),
    (dedup_entries l done).countP (fun e => e.1 == name) =
      if name ∈ done then 0
      else if name ∈ l.map (fun e => e.1) then 1 else 0
  | [], done => by simp [dedup_entries]
  | e :: rest, done => by
    rw [dedup_entries]
    by_cases h : e.1 ∈ done
    · rw [if_pos h]
      rw [dedup_entries_countP name rest done]
      by_cases hd : name ∈ done
      · simp [hd]
      · have hne : ¬ e.1 = name := fun heq => hd (heq ▸ h)
        have hne' : ¬ name = e.1 := fun heq => hne heq.symm
        simp only [if_neg hd, List.map_cons, List.mem_cons, eq_false hne', false_or]
    · rw [if_neg h]
      rw [List.countP_cons]
      rw [dedup_entries_countP name rest (e.1 :: done)]
      by_cases he : e.1 = name
      · subst he
        simp [h]
      · have hne' : ¬ name = e.1 := fun heq => he heq.symm
        have hbe : (e.1 == name) = false := by simpa using he
        simp only [hbe, Bool.false_eq_true, if_false, Nat.add_zero]
        by_cases hd : name ∈ done
        · simp only [List.map_cons, List.mem_cons, if_pos hd, eq_false hne', false_or]
        · simp only [List.map_cons, List.mem_cons, if_neg hd, eq_false hne', false_or]

/-- An entry recorded by the manual-tracing loop was requested, was not
already auto-caught, and resolved through `cgitb.lookup`. -/
theorem manual_entry_name_mem {key_vars done : List String} {r : FrameRecord}
    {e : Entry} (he : e ∈ manual_caught_vars key_vars done r) :
    e.1 ∈ key_vars ∧ e.1 ∉ done ∧
      lookup e.1 r.locals r.globals = (some e.2.1, e.2.2) := by
  unfold manual_caught_vars at he
  obtain ⟨a, ha, hfa⟩ := List.mem_filterMap.mp he
  by_cases had : a ∈ done
  · rw [if_pos had] at hfa
    simp at hfa
  · rw [if_neg had] at hfa
    rcases hw : lookup a r.locals r.globals with ⟨w, v⟩
    rw [hw] at hfa
    cases w with
    | none => simp at hfa
    | some whr =>
      simp only [Option.some.injEq] at hfa
      rw [← hfa]
      exact ⟨ha, had, hw⟩

/-! ## Claims -/

/-- C1 (counterexample): the claim "the decorated callable returns without
raising for all exception kinds; the only exclusion is PersistenceFailure"
fails on the code: when the wrapped callable raises and a detected
variable's value has a raising `str()`, report assembly raises inside the
`except` block and the conversion error escapes the decorated call — no
file is involved at all (`log_file` is empty). -/
theorem c1_counterexample :
    (decorated_body ⟨[], "", false⟩ "2024-01-01 00:00:00"
      (.exc "ZeroDivisionError: division by zero" [fr_bad1])
      fs0).ret = .error PyExc.strConversionError := rfl

/-- C1 (amended): for every wrapped callable that raises, the decorated
call returns normally (with Python's `None`) provided report assembly
succeeds; the exclusions are PersistenceFailure and report-assembly
failures (a reported value whose string conversion raises), which
propagate. -/
theorem c1_amended_never_raises (cfg : Config) (ts tb : String)
    (frames : List FrameRecord) (fs : String → Option String) (em : String)
    (h : report_text cfg.key_vars ts tb frames = .ok em) :
    (decorated_body cfg ts (.exc tb frames) fs).ret = .ok Value.pyNone := by
  unfold decorated_body
  dsimp only
  rw [h]
  dsimp only
  split <;> rfl

/-- C1 (witness): a concrete raising callable whose report assembles,
absorbed by the decorated call. -/
theorem c1_witness :
    report_text [] "t" "TB" [] = .ok emW1
    ∧ (decorated_body ⟨[], "", false⟩ "t" (.exc "TB" []) fs0).ret
        = .ok Value.pyNone :=
  ⟨rfl, c1_amended_never_raises ⟨[], "", false⟩ "t" "TB" [] fs0 emW1 rfl⟩

/-- C2: the claim "the decorated callable returns the wrapped callable's
return value unchanged" fails on the code: `decorated` calls `func()`
without using the result and has no `return` statement, so it returns
`None` whatever the wrapped callable returned (here `"42"`). -/
theorem c2_return_value_discarded :
    (decorated_body ⟨[], "", false⟩ "2024-01-01 00:00:00"
        (.ret (Value.str "42")) fs0).ret = .ok Value.pyNone
    ∧ Value.pyNone ≠ Value.str "42" :=
  ⟨rfl, by decide⟩

/-- C3 (counterexample): the claim "a value longer than 200 characters is
truncated to exactly the first 200 characters of the value's string
rendering" fails on the code.  For a single finding `local: x = <210 a's>`
the code emits `repC3`, whose dump line is the WHOLE line cut at 200
characters; the first 200 characters of the value (200 a's) appear nowhere
in the report — only 189 of them survive after the `local: x = ` prefix. -/
theorem c3_counterexample :
    variable_catching [] [⟨"c.py", 5, [("x", "local", Value.str aVal)], [], []⟩]
      = .ok repC3
    ∧ ¬ (aVal.take 200).data <:+: repC3.data := by
  constructor
  · have h1 : variable_catching []
        [⟨"c.py", 5, [("x", "local", Value.str aVal)], [], []⟩] =
        .ok ("/*Variables*/\n" ++ ("c.py, line " ++ (toString 5 ++ ("\n" ++
          ("|-- Detected relevant vars:\n" ++ ("  |-- " ++
            (("local: x = " ++ aVal).take 200 ++ "\n"))))))) := by
      simp [variable_catching, variable_catching_aux, parse_vars, parse_vars_aux,
        render_entry, manual_caught_vars, sec_lines, Value.render, String.append_assoc]
    rw [h1]
    congr 1
  · simp only [String.take_eq]
    decide

/-- C3 (amended): it is the whole dump line `where: name = value` — not
the value alone — that is hard-truncated to its first 200 characters, so
the value portion of a report line receives 200 minus the length of the
`where: name = ` prefix characters.  Shown here exactly for a frame with
one auto-detected finding. -/
theorem c3_amended_line_truncation (file name whr sval : String) (lnum : Nat) :
    variable_catching [] [⟨file, lnum, [(name, whr, Value.str sval)], [], []⟩] =
      .ok ("/*Variables*/\n" ++ (file ++ (", line " ++ (toString lnum ++ ("\n" ++
        ("|-- Detected relevant vars:\n" ++ ("  |-- " ++
          ((whr ++ (": " ++ (name ++ (" = " ++ sval)))).take 200 ++ "\n")))))))) := by
  simp [variable_catching, variable_catching_aux, parse_vars, parse_vars_aux,
    render_entry, manual_caught_vars, sec_lines, Value.render, String.append_assoc]

/-- C4: a name both listed in `key_vars` and auto-detected in a frame is
reported exactly once in that frame, on the auto-detected side: after
`parse_vars` de-duplication it owns exactly one auto entry (`parse_vars`
being the formatting of the de-duplicated entries), and the manual-tracing
loop — seeded with the raw `scanvars` names as `done` — records no entry
for it, so it never also appears under "Other traced vars". -/
theorem c4_auto_detection_takes_precedence (key_vars : List String)
    (name : String) (r : FrameRecord) (_h1 : name ∈ key_vars)
    (h2 : name ∈ r.autoVars.map fun e => e.1) :
    (dedup_entries r.autoVars []).countP (fun e => e.1 == name) = 1
    ∧ parse_vars r.autoVars = render_lines (dedup_entries r.autoVars [])
    ∧ ∀ e ∈ manual_caught_vars key_vars (r.autoVars.map fun e => e.1) r,
        e.1 ≠ name := by
  refine ⟨?_, parse_vars_aux_eq_render_dedup r.autoVars [], ?_⟩
  · rw [dedup_entries_countP]
    simp [h2]
  · intro e he heq
    obtain ⟨-, hnd, -⟩ := manual_entry_name_mem he
    rw [heq] at hnd
    exact hnd h2

/-- C4 (witness): `key_vars = ["i"]` with `i` auto-detected on the failing
line `k / i`. -/
theorem c4_witness :
    ("i" ∈ (["i"] : List String)
      ∧ "i" ∈ frW4.autoVars.map fun e => e.1)
    ∧ ((dedup_entries frW4.autoVars []).countP (fun e => e.1 == "i") = 1
      ∧ parse_vars frW4.autoVars = render_lines (dedup_entries frW4.autoVars [])
      ∧ ∀ e ∈ manual_caught_vars ["i"] (frW4.autoVars.map fun e => e.1) frW4,
          e.1 ≠ "i") :=
  ⟨⟨by decide, by decide⟩,
   c4_auto_detection_takes_precedence ["i"] "i" frW4 (by decide) (by decide)⟩

/-- C5: a requested name that resolves in neither the local nor the global
namespace of any visited frame contributes no manual entry in any frame —
`cgitb.lookup` returns a falsy `where`, so the manual loop records nothing
for it (in particular it is never marked undefined there; undefined
markers only come from the auto-detected entries). -/
theorem c5_unresolvable_key_var_omitted (name : String)
    (key_vars : List String) (records : List FrameRecord)
    (_h1 : name ∈ key_vars)
    (hl : ∀ r ∈ records, List.lookup name r.locals = none)
    (hg : ∀ r ∈ records, List.lookup name r.globals = none) :
    ∀ r ∈ records,
      ∀ e ∈ manual_caught_vars key_vars (r.autoVars.map fun e => e.1) r,
        e.1 ≠ name := by
  intro r hr e he heq
  obtain ⟨-, -, hlk⟩ := manual_entry_name_mem he
  rw [heq] at hlk
  unfold lookup at hlk
  rw [hl r hr, hg r hr] at hlk
  simp at hlk

/-- C5 (witness): the requested name `zz` resolves nowhere in the visited
frame and yields no manual entry. -/
theorem c5_witness :
    (("zz" ∈ (["zz"] : List String))
      ∧ List.lookup "zz" frW4.locals = none
      ∧ List.lookup "zz" frW4.globals = none)
    ∧ ∀ r ∈ [frW4],
      ∀ e ∈ manual_caught_vars ["zz"] (r.autoVars.map fun e => e.1) r,
        e.1 ≠ "zz" :=
  ⟨⟨by decide, by decide, by decide⟩,
   c5_unresolvable_key_var_omitted "zz" ["zz"] [frW4] (by decide)
     (by intro r hr; simp at hr; subst hr; decide)
     (by intro r hr; simp at hr; subst hr; decide)⟩

/-- C6: the claim "report generation never raises; a value whose string
conversion raises is contained per-variable and does not mask the original
exception" fails on the code: there is no containment anywhere in
`parse_vars`/`variable_catching`, so one bad value aborts the whole report
and the conversion error replaces the original exception as what escapes
the decorated call. -/
theorem c6_report_generation_raises :
    variable_catching ["k"] [fr_bad6] = .error ()
    ∧ (decorated_body ⟨["k"], "", false⟩ "2024-02-02 10:00:00"
        (.exc "TypeError: boom" [fr_bad6]) fs0).ret
        = .error PyExc.strConversionError :=
  ⟨rfl, rfl⟩

/-- C7: two sequential failures logged to the same path.  With
`ascending = false` the file ends up holding the second report followed by
the first (prepend by read-then-rewrite; a missing file counts as empty
content); with `ascending = true` it holds the first report followed by
the second (append). -/
theorem c7_log_order (kv : List String) (p ts1 ts2 tb1 tb2 : String)
    (f1 f2 : List FrameRecord) (fs : String → Option String) (m1 m2 : String)
    (hp : p ≠ "")
    (h1 : report_text kv ts1 tb1 f1 = .ok m1)
    (h2 : report_text kv ts2 tb2 f2 = .ok m2) :
    (decorated_body ⟨kv, p, false⟩ ts2 (.exc tb2 f2)
        ((decorated_body ⟨kv, p, false⟩ ts1 (.exc tb1 f1) fs).fs)).fs p
      = some (m2 ++ (m1 ++ (fs p).getD ""))
    ∧ (decorated_body ⟨kv, p, true⟩ ts2 (.exc tb2 f2)
        ((decorated_body ⟨kv, p, true⟩ ts1 (.exc tb1 f1) fs).fs)).fs p
      = some (((fs p).getD "" ++ m1) ++ m2) := by
  have hpb : (p != "") = true := by simpa using hp
  constructor
  · have e1 : (decorated_body ⟨kv, p, false⟩ ts1 (.exc tb1 f1) fs).fs
        = fun q => if q = p then some (m1 ++ (fs p).getD "") else fs q := by
      unfold decorated_body
      dsimp only
      rw [h1, hpb]
      rfl
    rw [e1]
    unfold decorated_body
    dsimp only
    rw [h2, hpb]
    simp
  · have e1 : (decorated_body ⟨kv, p, true⟩ ts1 (.exc tb1 f1) fs).fs
        = fun q => if q = p then some ((fs p).getD "" ++ m1) else fs q := by
      unfold decorated_body
      dsimp only
      rw [h1, hpb]
      rfl
    rw [e1]
    unfold decorated_body
    dsimp only
    rw [h2, hpb]
    simp

/-- C7 (witness): two concrete failures against an initially absent log
file, in both orderings. -/
theorem c7_witness :
    (("log.txt" : String) ≠ ""
      ∧ report_text [] "t1" "TB1" [] = .ok m1W
      ∧ report_text [] "t2" "TB2" [] = .ok m2W)
    ∧ (decorated_body ⟨[], "log.txt", false⟩ "t2" (.exc "TB2" [])
        ((decorated_body ⟨[], "log.txt", false⟩ "t1" (.exc "TB1" []) fs0).fs)).fs "log.txt"
      = some (m2W ++ (m1W ++ (fs0 "log.txt").getD ""))
    ∧ (decorated_body ⟨[], "log.txt", true⟩ "t2" (.exc "TB2" [])
        ((decorated_body ⟨[], "log.txt", true⟩ "t1" (.exc "TB1" []) fs0).fs)).fs "log.txt"
      = some (((fs0 "log.txt").getD "" ++ m1W) ++ m2W) :=
  ⟨⟨by decide, rfl, rfl⟩,
   (c7_log_order [] "log.txt" "t1" "t2" "TB1" "TB2" [] [] fs0 m1W m2W
     (by decide) rfl rfl).1,
   (c7_log_order [] "log.txt" "t1" "t2" "TB1" "TB2" [] [] fs0 m1W m2W
     (by decide) rfl rfl).2⟩

/-- C8: the variables block is the per-frame sections concatenated in
frame order, with the `/*Variables*/` header emitted exactly once — in
front of everything — when at least one section is non-empty, and the
block is entirely empty when no frame produced a finding; moreover a
frame's section is empty exactly when the frame has neither auto-detected
nor manual findings (so a section — file/line header and lists — is
emitted only for frames with at least one finding). -/
theorem c8_variables_header_once (key_vars : List String)
    (records : List FrameRecord) :
    variable_catching key_vars records =
      (frame_sections key_vars records).map
        (fun l => (if sjoin l = "" then "" else "/*Variables*/\n") ++ sjoin l)
    ∧ ∀ r : FrameRecord, ∀ auto manual : List String,
        parse_vars r.autoVars = .ok auto →
        parse_vars (manual_caught_vars key_vars
          (r.autoVars.map fun e => e.1) r) = .ok manual →
        (frame_section key_vars r = .ok "" ↔ (auto = [] ∧ manual = [])) := by
  constructor
  · rw [variable_catching, variable_catching_aux_eq_sections]
    cases frame_sections key_vars records with
    | error u => rfl
    | ok l =>
      dsimp only [Except.map]
      by_cases hl : sjoin l = ""
      · simp [hl]
      · simp [hl]
  · intro r auto manual h1 h2
    unfold frame_section
    rw [h1]
    dsimp only
    rw [h2]
    dsimp only
    cases hFb : (auto.length + manual.length != 0) with
    | false =>
      have hF : auto.length + manual.length = 0 := by simpa using hFb
      have ha : auto = [] := List.length_eq_zero.mp (by omega)
      have hm : manual = [] := List.length_eq_zero.mp (by omega)
      subst ha; subst hm
      simp
    | true =>
      have hF : ¬ (auto.length + manual.length = 0) := by simpa using hFb
      constructor
      · intro hok
        have hs := Except.ok.inj hok
        rw [if_pos rfl] at hs
        simp only [String.append_assoc] at hs
        exact absurd hs (report_line_ne_empty r.file (toString r.lnum) _)
      · intro ⟨ha, hm⟩
        subst ha; subst hm
        simp at hF

/-- C8 (witness): a frame with no findings produces an empty section and no
`/*Variables*/` header. -/
theorem c8_witness :
    (parse_vars frW8.autoVars = .ok []
      ∧ parse_vars (manual_caught_vars []
          (frW8.autoVars.map fun e => e.1) frW8) = .ok [])
    ∧ variable_catching [] [frW8] =
        (frame_sections [] [frW8]).map
          (fun l => (if sjoin l = "" then "" else "/*Variables*/\n") ++ sjoin l)
    ∧ (frame_section [] frW8 = .ok ""
        ↔ (([] : List String) = [] ∧ ([] : List String) = [])) :=
  ⟨⟨rfl, rfl⟩,
   (c8_variables_header_once [] [frW8]).1,
   (c8_variables_header_once [] [frW8]).2 frW8 [] [] rfl rfl⟩

/-- C9: with an empty `log_file` the decorated call leaves every file
untouched and prints the full report (with `print`'s trailing newline);
with a non-empty `log_file` standard output receives only the one-line
notice naming the log file, and the report goes to that file. -/
theorem c9_output_routing (kv : List String) (p ts tb : String)
    (frames : List FrameRecord) (fs : String → Option String) (asc : Bool)
    (em : String) (hrep : report_text kv ts tb frames = .ok em) (hp : p ≠ "") :
    decorated_body ⟨kv, "", asc⟩ ts (.exc tb frames) fs
      = ⟨.ok Value.pyNone, em ++ "\n", fs⟩
    ∧ (decorated_body ⟨kv, p, asc⟩ ts (.exc tb frames) fs).out
      = "Exception caught. See " ++ p ++ ".\n"
    ∧ (decorated_body ⟨kv, p, asc⟩ ts (.exc tb frames) fs).fs p
      = some (if asc then (fs p).getD "" ++ em else em ++ (fs p).getD "")
    ∧ ∀ q, q ≠ p →
        (decorated_body ⟨kv, p, asc⟩ ts (.exc tb frames) fs).fs q = fs q := by
  have hpb : (p != "") = true := by simpa using hp
  refine ⟨?_, ?_, ?_, ?_⟩
  · unfold decorated_body
    dsimp only
    rw [hrep]
    rfl
  · unfold decorated_body
    dsimp only
    rw [hrep, hpb]
    rfl
  · unfold decorated_body
    dsimp only
    rw [hrep, hpb]
    simp
  · intro q hq
    unfold decorated_body
    dsimp only
    rw [hrep, hpb]
    simp [hq]

/-- C9 (witness): a concrete failure routed to standard output, and the
same failure routed to a log file. -/
theorem c9_witness :
    (report_text [] "t9" "TB9" [] = .ok emW9 ∧ ("out.log" : String) ≠ "")
    ∧ decorated_body ⟨[], "", false⟩ "t9" (.exc "TB9" []) fs0
        = ⟨.ok Value.pyNone, emW9 ++ "\n", fs0⟩
    ∧ (decorated_body ⟨[], "out.log", false⟩ "t9" (.exc "TB9" []) fs0).out
        = "Exception caught. See " ++ "out.log" ++ ".\n"
    ∧ (decorated_body ⟨[], "out.log", false⟩ "t9" (.exc "TB9" []) fs0).fs "out.log"
        = some (if false then (fs0 "out.log").getD "" ++ emW9
                else emW9 ++ (fs0 "out.log").getD "") :=
  ⟨⟨rfl, by decide⟩,
   (c9_output_routing [] "out.log" "t9" "TB9" [] fs0 false emW9 rfl (by decide)).1,
   (c9_output_routing [] "out.log" "t9" "TB9" [] fs0 false emW9 rfl (by decide)).2.1,
   (c9_output_routing [] "out.log" "t9" "TB9" [] fs0 false emW9 rfl (by decide)).2.2.1⟩

/-- C10: invoking the zero-parameter `decorated` with any argument raises a
`TypeError` during argument binding, before the `try` block runs — nothing
is printed, no file is touched, and the error is not suppressed. -/
theorem c10_nonzero_arity_type_error (cfg : Config) (ts : String)
    (f : FuncResult) (fs : String → Option String) (n : Nat) (h : n ≠ 0) :
    (decorated_invoke cfg ts f fs n).ret = .error PyExc.typeError
    ∧ (decorated_invoke cfg ts f fs n).out = ""
    ∧ ∀ q, (decorated_invoke cfg ts f fs n).fs q = fs q := by
  unfold decorated_invoke
  have hb : (n != 0) = true := by simpa using h
  rw [hb]
  exact ⟨rfl, rfl, fun q => rfl⟩

/-- C10 (witness): one extra argument, a raising callable behind it. -/
theorem c10_witness :
    (1 ≠ 0)
    ∧ (decorated_invoke ⟨[], "", false⟩ "t" (.ret Value.pyNone) fs0 1).ret
        = .error PyExc.typeError
    ∧ (decorated_invoke ⟨[], "", false⟩ "t" (.ret Value.pyNone) fs0 1).out = ""
    ∧ ∀ q, (decorated_invoke ⟨[], "", false⟩ "t" (.ret Value.pyNone) fs0 1).fs q
        = fs0 q :=
  ⟨by decide,
   c10_nonzero_arity_type_error ⟨[], "", false⟩ "t" (.ret Value.pyNone) fs0 1
     (by decide)⟩

end ErrorCatcher
